import Mathlib

/-!
Verification of the student-dashboard data model (`dashboard.py`).

The Python source is shallowly embedded: the four entity classes
(`Pruefungsleistung`, `Modul`, `Semester`, `Studiengang`) become Lean
structures, their methods become pure functions (mutation becomes
returning the updated record), Python `float` grades become `Rat`,
Python `int` becomes `Int`, optional fields become `Option`, and the
JSON layer (`to_dict` / `from_dict` / `json.dump` / `json.load`)
becomes an explicit `Json` value tree with `Option`-returning decoders
(a `none` result stands for the Python exception that
`PersistenceService.loadData` catches).
-/

/-- JSON values as produced by Python's `json` module: `int` and `float`
are distinct Python types, so they get distinct constructors; objects
are ordered key/value lists (Python dicts preserve insertion order). -/
inductive Json where
  | null : Json
  | bool : Bool → Json
  | int : Int → Json
  | num : Rat → Json
  | str : String → Json
  | arr : List Json → Json
  | obj : List (String × Json) → Json

/-- `data[k]` / `data.get(k)` on a parsed JSON value: key lookup when the
value is an object, failure otherwise (Python would raise `TypeError` /
`KeyError`, which `loadData` catches). -/
def Json.getKey (j : Json) (k : String) : Option Json :=
  match j with
  | .obj kvs => kvs.lookup k
  | _ => none

/-- The keys of a JSON object, in order. -/
def Json.keys : Json → List String
  | .obj kvs => kvs.map Prod.fst
  | _ => []

/-- Decode a JSON value at Python type `str`. -/
def Json.asStr : Json → Option String
  | .str s => some s
  | _ => none

/-- Decode a JSON value at Python type `int`. -/
def Json.asInt : Json → Option Int
  | .int i => some i
  | _ => none

/-- Decode a JSON value as a grade (Python stores whatever number the
JSON carried; both `int` and `float` tokens are numbers). -/
def Json.asGrade : Json → Option Rat
  | .int i => some (i : Rat)
  | .num q => some q
  | _ => none

/-- `Pruefungsleistung`: one exam attempt, grade `note` and counter
`versuch` (dashboard.py lines 8-27). -/
structure Pruefungsleistung where
  note : Rat
  versuch : Int
deriving DecidableEq, Repr

/-- `Modul`: name, ECTS credits, status string, optional final grade,
and the ordered list of attempts (dashboard.py lines 30-80). -/
structure Modul where
  modulName : String
  ects : Int
  status : String
  note : Option Rat
  pruefungen : List Pruefungsleistung
deriving DecidableEq, Repr

/-- `Semester`: number, optional start/end date strings, ordered module
list (dashboard.py lines 83-127). -/
structure Semester where
  semesterNummer : Int
  startDatum : Option String
  endDatum : Option String
  module : List Modul
deriving DecidableEq, Repr

/-- `Studiengang`: program name, total ECTS target, ordered semester
list (dashboard.py lines 130-185). -/
structure Studiengang where
  name : String
  gesamtECTS : Int
  semester : List Semester
deriving DecidableEq, Repr

/-- The `Modul` constructor: `pruefungen` starts empty and `note`
defaults to `None` (dashboard.py lines 35-40). -/
def Modul.mk0 (modulName : String) (ects : Int) (status : String)
    (note : Option Rat := none) : Modul :=
  { modulName := modulName, ects := ects, status := status,
    note := note, pruefungen := [] }

/-- `Modul.addPruefungsleistung` (lines 42-48): append the attempt and
set `note` to the new attempt's grade. -/
def Modul.addPruefungsleistung (m : Modul) (p : Pruefungsleistung) : Modul :=
  { m with pruefungen := m.pruefungen ++ [p], note := some p.note }

/-- `Modul.getAktuelleNote` (lines 50-54). -/
def Modul.getAktuelleNote (m : Modul) : Option Rat :=
  m.note

/-- `Semester.addModul` (lines 93-97). -/
def Semester.addModul (sem : Semester) (m : Modul) : Semester :=
  { sem with module := sem.module ++ [m] }

/-- Python `list.remove`: drop the first element comparing equal to `m`.
(When `m` is absent Python raises `ValueError`; that case is outside
every theorem below, which all assume membership.) -/
def removeFirst (m : Modul) : List Modul → List Modul
  | [] => []
  | x :: xs => if x = m then xs else x :: removeFirst m xs

/-- `Semester.removeModul` (lines 99-103): `self.module.remove(m)`. -/
def Semester.removeModul (sem : Semester) (m : Modul) : Semester :=
  { sem with module := removeFirst m sem.module }

/-- `Studiengang.addSemester` (lines 140-144). -/
def Studiengang.addSemester (stg : Studiengang) (s : Semester) : Studiengang :=
  { stg with semester := stg.semester ++ [s] }

/-- Python `str.lower()` as used on the (ASCII) status strings:
character-wise lowercasing. -/
def pyLower (s : String) : String :=
  ⟨s.data.map Char.toLower⟩

/-- `Studiengang.getNotendurchschnitt` (lines 146-155): collect every
present module grade into `noten`, then
`sum(noten) / len(noten) if noten else 0.0`. -/
def Studiengang.getNotendurchschnitt (stg : Studiengang) : Rat :=
  let noten : List Rat := stg.semester.foldl (fun acc sem =>
    sem.module.foldl (fun acc2 m =>
      match m.note with
      | some n => acc2 ++ [n]
      | none => acc2) acc) []
  if noten.isEmpty then 0 else noten.sum / (noten.length : Rat)

/-- `Studiengang.getFortschrittECTS` (lines 157-166): sum the ECTS of
every module whose lowercased status equals `"abgeschlossen"`. -/
def Studiengang.getFortschrittECTS (stg : Studiengang) : Int :=
  stg.semester.foldl (fun earned sem =>
    sem.module.foldl (fun e m =>
      if pyLower m.status = "abgeschlossen" then e + m.ects else e) earned) 0

/-- The progress percentage computed inline in
`DashboardService.displayDashboard` (line 227):
`(earned / gesamtECTS * 100) if gesamtECTS > 0 else 0`. -/
def DashboardService.progressPercentage (stg : Studiengang) : Rat :=
  if stg.gesamtECTS > 0 then
    (stg.getFortschrittECTS : Rat) / (stg.gesamtECTS : Rat) * 100
  else 0

/-- `Pruefungsleistung.to_dict` (lines 16-20). -/
def Pruefungsleistung.to_dict (p : Pruefungsleistung) : Json :=
  .obj [("note", .num p.note), ("versuch", .int p.versuch)]

/-- `Modul.to_dict` (lines 56-66): the optional `note` serializes to
JSON `null` when absent. -/
def Modul.to_dict (m : Modul) : Json :=
  .obj [("modulName", .str m.modulName),
        ("ects", .int m.ects),
        ("status", .str m.status),
        ("note", match m.note with | some q => .num q | none => .null),
        ("pruefungen", .arr (m.pruefungen.map Pruefungsleistung.to_dict))]

/-- `Semester.to_dict` (lines 105-114). -/
def Semester.to_dict (sem : Semester) : Json :=
  .obj [("semesterNummer", .int sem.semesterNummer),
        ("startDatum", match sem.startDatum with | some s => .str s | none => .null),
        ("endDatum", match sem.endDatum with | some s => .str s | none => .null),
        ("module", .arr (sem.module.map Modul.to_dict))]

/-- `Studiengang.to_dict` (lines 168-176). -/
def Studiengang.to_dict (stg : Studiengang) : Json :=
  .obj [("name", .str stg.name),
        ("gesamtECTS", .int stg.gesamtECTS),
        ("semester", .arr (stg.semester.map Semester.to_dict))]

/-- A Python list comprehension `[f(x) for x in xs]` whose body may
raise: the first failure aborts the whole comprehension. -/
def decodeList (f : Json → Option α) : List Json → Option (List α)
  | [] => some []
  | x :: xs =>
    match f x, decodeList f xs with
    | some a, some as => some (a :: as)
    | _, _ => none

/-- Decode the value found under an optional grade key:
a missing key or JSON `null` both give Python `None`. -/
def decodeOptGrade : Option Json → Option (Option Rat)
  | none => some none
  | some .null => some none
  | some (.int i) => some (some (i : Rat))
  | some (.num q) => some (some q)
  | some _ => none

/-- Decode the value found under an optional string key (the dates):
a missing key or JSON `null` both give Python `None`. -/
def decodeOptStr : Option Json → Option (Option String)
  | none => some none
  | some .null => some none
  | some (.str s) => some (some s)
  | some _ => none

/-- Decode the value found under a child-list key:
`data.get(k, [])` — a missing key defaults to the empty list. -/
def decodeChildren (f : Json → Option α) : Option Json → Option (List α)
  | none => some []
  | some (.arr xs) => decodeList f xs
  | some _ => none

/-- `Pruefungsleistung.from_dict` (lines 22-27): `note` and `versuch`
are required (`data["note"]`, `data["versuch"]`). -/
def Pruefungsleistung.from_dict (j : Json) : Option Pruefungsleistung :=
  ((j.getKey "note").bind Json.asGrade).bind fun n =>
  ((j.getKey "versuch").bind Json.asInt).bind fun v =>
  some { note := n, versuch := v }

/-- `Modul.from_dict` (lines 68-80): `modulName`, `ects`, `status` are
required; `note` via `data.get("note")`; `pruefungen` via
`data.get("pruefungen", [])`. -/
def Modul.from_dict (j : Json) : Option Modul :=
  ((j.getKey "modulName").bind Json.asStr).bind fun n =>
  ((j.getKey "ects").bind Json.asInt).bind fun e =>
  ((j.getKey "status").bind Json.asStr).bind fun s =>
  (decodeOptGrade (j.getKey "note")).bind fun g =>
  (decodeChildren Pruefungsleistung.from_dict (j.getKey "pruefungen")).bind fun ps =>
  some { modulName := n, ects := e, status := s, note := g, pruefungen := ps }

/-- `Semester.from_dict` (lines 116-127): `semesterNummer` is required;
`startDatum`, `endDatum` via `data.get`; `module` via
`data.get("module", [])`. -/
def Semester.from_dict (j : Json) : Option Semester :=
  ((j.getKey "semesterNummer").bind Json.asInt).bind fun k =>
  (decodeOptStr (j.getKey "startDatum")).bind fun sd =>
  (decodeOptStr (j.getKey "endDatum")).bind fun ed =>
  (decodeChildren Modul.from_dict (j.getKey "module")).bind fun ms =>
  some { semesterNummer := k, startDatum := sd, endDatum := ed, module := ms }

/-- `Studiengang.from_dict` (lines 178-185): `name` and `gesamtECTS`
are required; `semester` via `data.get("semester", [])`. -/
def Studiengang.from_dict (j : Json) : Option Studiengang :=
  ((j.getKey "name").bind Json.asStr).bind fun n =>
  ((j.getKey "gesamtECTS").bind Json.asInt).bind fun g =>
  (decodeChildren Semester.from_dict (j.getKey "semester")).bind fun ss =>
  some { name := n, gesamtECTS := g, semester := ss }

/-- What a named resource can hold: nothing (unavailable), text that is
not valid JSON (`json.load` raises), or a parsed JSON value. -/
inductive FileContent where
  | malformed (raw : String)
  | parsed (j : Json)

/-- The external storage: resource name to content. -/
def Store := String → Option FileContent

/-- `PersistenceService.saveData` (lines 243-256): serialize the tree
with `to_dict` and write it to the named resource. -/
def PersistenceService.saveData (store : Store) (datei : String)
    (stg : Studiengang) : Store :=
  fun k => if k = datei then some (.parsed stg.to_dict) else store k

/-- `PersistenceService.loadData` (lines 258-274): read, parse, rebuild
via `Studiengang.from_dict`; every failure is caught and turned into
`None` (here `none`). -/
def PersistenceService.loadData (store : Store) (datei : String) :
    Option Studiengang :=
  match store datei with
  | none => none
  | some (.malformed _) => none
  | some (.parsed j) => Studiengang.from_dict j

/-- The modules of a program, in traversal order (outer loop over
semesters, inner loop over modules). -/
def Studiengang.allModule (stg : Studiengang) : List Modul :=
  stg.semester.flatMap Semester.module

/-- Character-wise case equivalence of two strings: same length, and
every character pair lowercases identically ("changing only the letter
case"). -/
def caseVariantChars : List Char → List Char → Bool
  | [], [] => true
  | c :: cs, d :: ds => (c.toLower == d.toLower) && caseVariantChars cs ds
  | _, _ => false

/-- Two strings that differ only in letter case. -/
def caseVariant (s t : String) : Prop :=
  caseVariantChars s.data t.data = true

/-- Two modules equal except that the status string may differ in
letter case. -/
def modulCaseEq (m m' : Modul) : Prop :=
  m'.modulName = m.modulName ∧ m'.ects = m.ects ∧
  caseVariant m.status m'.status ∧ m'.note = m.note ∧
  m'.pruefungen = m.pruefungen

/-- Pointwise `modulCaseEq` on module lists. -/
def modulListCaseEq : List Modul → List Modul → Prop
  | [], [] => True
  | m :: ms, m' :: ms' => modulCaseEq m m' ∧ modulListCaseEq ms ms'
  | _, _ => False

/-- Two semesters equal except for letter case of module statuses. -/
def semesterCaseEq (s s' : Semester) : Prop :=
  s'.semesterNummer = s.semesterNummer ∧ s'.startDatum = s.startDatum ∧
  s'.endDatum = s.endDatum ∧ modulListCaseEq s.module s'.module

/-- Pointwise `semesterCaseEq` on semester lists. -/
def semesterListCaseEq : List Semester → List Semester → Prop
  | [], [] => True
  | s :: ss, s' :: ss' => semesterCaseEq s s' ∧ semesterListCaseEq ss ss'
  | _, _ => False

/-- Two programs equal except for letter case of module statuses. -/
def studiengangCaseEq (stg stg' : Studiengang) : Prop :=
  stg'.name = stg.name ∧ stg'.gesamtECTS = stg.gesamtECTS ∧
  semesterListCaseEq stg.semester stg'.semester

instance (s t : String) : Decidable (caseVariant s t) :=
  instDecidableEqBool _ _

instance (m m' : Modul) : Decidable (modulCaseEq m m') := by
  unfold modulCaseEq; infer_instance

instance decModulListCaseEq :
    (ms ms' : List Modul) → Decidable (modulListCaseEq ms ms')
  | [], [] => isTrue trivial
  | [], _ :: _ => isFalse (fun h => h)
  | _ :: _, [] => isFalse (fun h => h)
  | m :: ms, m' :: ms' =>
    haveI := decModulListCaseEq ms ms'
    inferInstanceAs (Decidable (modulCaseEq m m' ∧ modulListCaseEq ms ms'))

instance (s s' : Semester) : Decidable (semesterCaseEq s s') := by
  unfold semesterCaseEq; infer_instance

instance decSemesterListCaseEq :
    (ss ss' : List Semester) → Decidable (semesterListCaseEq ss ss')
  | [], [] => isTrue trivial
  | [], _ :: _ => isFalse (fun h => h)
  | _ :: _, [] => isFalse (fun h => h)
  | s :: ss, s' :: ss' =>
    haveI := decSemesterListCaseEq ss ss'
    inferInstanceAs (Decidable (semesterCaseEq s s' ∧ semesterListCaseEq ss ss'))

instance (stg stg' : Studiengang) : Decidable (studiengangCaseEq stg stg') := by
  unfold studiengangCaseEq; infer_instance

/-- Replace every module's final grade by an arbitrary function of the
module (used to state that earned credits ignore grades). -/
def Studiengang.mapNoten (f : Modul → Option Rat) (stg : Studiengang) :
    Studiengang :=
  { stg with semester := stg.semester.map (fun sem =>
      { sem with module := sem.module.map (fun m => { m with note := f m }) }) }

/-- The example program built by `main` (dashboard.py lines 289-311):
"Angewandte KI", 180 ECTS, two semesters, three modules; the two
completed modules carry one exam attempt each, so their `note` is the
attempt's grade. -/
def stgBeispiel : Studiengang :=
  { name := "Angewandte KI", gesamtECTS := 180,
    semester :=
      [{ semesterNummer := 1, startDatum := some "2023-10-01",
         endDatum := some "2024-03-31",
         module :=
           [{ modulName := "Mathe I", ects := 8, status := "Abgeschlossen",
              note := some (23/10), pruefungen := [{ note := 23/10, versuch := 1 }] },
            { modulName := "Programmierung", ects := 10,
              status := "In Bearbeitung", note := none, pruefungen := [] }] },
       { semesterNummer := 2, startDatum := some "2024-04-01",
         endDatum := some "2024-09-30",
         module :=
           [{ modulName := "Datenbanken", ects := 6, status := "Abgeschlossen",
              note := some 2, pruefungen := [{ note := 2, versuch := 1 }] }] }] }

/-- `stgBeispiel` with the letter case of every module status changed. -/
def stgBeispielCase : Studiengang :=
  { name := "Angewandte KI", gesamtECTS := 180,
    semester :=
      [{ semesterNummer := 1, startDatum := some "2023-10-01",
         endDatum := some "2024-03-31",
         module :=
           [{ modulName := "Mathe I", ects := 8, status := "ABGESCHLOSSEN",
              note := some (23/10), pruefungen := [{ note := 23/10, versuch := 1 }] },
            { modulName := "Programmierung", ects := 10,
              status := "in bearbeitung", note := none, pruefungen := [] }] },
       { semesterNummer := 2, startDatum := some "2024-04-01",
         endDatum := some "2024-09-30",
         module :=
           [{ modulName := "Datenbanken", ects := 6, status := "abgeschlossen",
              note := some 2, pruefungen := [{ note := 2, versuch := 1 }] }] }] }

/-- An empty program with credit target zero. -/
def stgLeer : Studiengang :=
  { name := "Leer", gesamtECTS := 0, semester := [] }

/- ------------------------------------------------------------------ -/
/- Helper lemmas                                                      -/
/- ------------------------------------------------------------------ -/

/-- The ECTS fold over one module list, started at `e`, adds the sum of
credits of the completed modules. -/
lemma fortschritt_foldl_modules (ms : List Modul) (e : Int) :
    ms.foldl (fun e m =>
        if pyLower m.status = "abgeschlossen" then e + m.ects else e) e
      = e + (((ms.filter (fun m =>
          decide (pyLower m.status = "abgeschlossen"))).map Modul.ects).sum) := by
  induction ms generalizing e with
  | nil => simp
  | cons m ms ih =>
    by_cases h : pyLower m.status = "abgeschlossen" <;>
      simp [List.foldl_cons, List.filter_cons, h, ih, add_assoc]

/-- The ECTS fold over a semester list, started at `e`. -/
lemma fortschritt_foldl_sems (ss : List Semester) (e : Int) :
    ss.foldl (fun earned sem =>
        sem.module.foldl (fun e m =>
          if pyLower m.status = "abgeschlossen" then e + m.ects else e) earned) e
      = e + ((((ss.flatMap Semester.module).filter (fun m =>
          decide (pyLower m.status = "abgeschlossen"))).map Modul.ects).sum) := by
  induction ss generalizing e with
  | nil => simp
  | cons s ss ih =>
    simp only [List.foldl_cons]
    rw [fortschritt_foldl_modules, ih]
    simp [List.flatMap_cons, List.filter_append, List.map_append,
      List.sum_append, add_assoc]

/-- `getFortschrittECTS` as a filter/map/sum over all modules. -/
lemma fortschritt_formula (stg : Studiengang) :
    stg.getFortschrittECTS
      = ((stg.allModule.filter (fun m =>
          decide (pyLower m.status = "abgeschlossen"))).map Modul.ects).sum := by
  have h := fortschritt_foldl_sems stg.semester 0
  simpa [Studiengang.getFortschrittECTS, Studiengang.allModule] using h

/-- The grade-collecting fold over one module list appends the present
grades. -/
lemma noten_foldl_modules (ms : List Modul) (acc : List Rat) :
    ms.foldl (fun acc2 m =>
        match m.note with
        | some n => acc2 ++ [n]
        | none => acc2) acc
      = acc ++ ms.filterMap Modul.note := by
  induction ms generalizing acc with
  | nil => simp
  | cons m ms ih =>
    cases h : m.note <;>
      simp [List.foldl_cons, List.filterMap_cons, h, ih]

/-- The grade-collecting fold over a semester list. -/
lemma noten_foldl_sems (ss : List Semester) (acc : List Rat) :
    ss.foldl (fun acc sem =>
        sem.module.foldl (fun acc2 m =>
          match m.note with
          | some n => acc2 ++ [n]
          | none => acc2) acc) acc
      = acc ++ (ss.flatMap Semester.module).filterMap Modul.note := by
  induction ss generalizing acc with
  | nil => simp
  | cons s ss ih =>
    simp only [List.foldl_cons]
    rw [noten_foldl_modules, ih]
    simp [List.flatMap_cons, List.filterMap_append]

/-- The list built inside `getNotendurchschnitt` is exactly the present
grades of all modules. -/
lemma noten_formula (stg : Studiengang) :
    stg.getNotendurchschnitt
      = (if stg.allModule.filterMap Modul.note = [] then 0 else
          (stg.allModule.filterMap Modul.note).sum
            / ((stg.allModule.filterMap Modul.note).length : Rat)) := by
  unfold Studiengang.getNotendurchschnitt
  rw [noten_foldl_sems]
  by_cases h : (stg.semester.flatMap Semester.module).filterMap Modul.note = [] <;>
    simp [Studiengang.allModule, h]

/-- Case-equivalent character lists lowercase to the same list. -/
lemma caseVariantChars_toLower : ∀ cs ds : List Char,
    caseVariantChars cs ds = true → cs.map Char.toLower = ds.map Char.toLower
  | [], [], _ => rfl
  | [], _ :: _, h => by simp [caseVariantChars] at h
  | _ :: _, [], h => by simp [caseVariantChars] at h
  | c :: cs, d :: ds, h => by
    simp only [caseVariantChars, Bool.and_eq_true, beq_iff_eq] at h
    simp [List.map_cons, h.1, caseVariantChars_toLower cs ds h.2]

/-- Strings differing only in letter case have the same `pyLower`. -/
lemma pyLower_caseVariant {s t : String} (h : caseVariant s t) :
    pyLower s = pyLower t := by
  unfold pyLower
  exact congrArg String.mk (caseVariantChars_toLower s.data t.data h)

/-- Earned credits of a module list are invariant under changing only
the letter case of the statuses. -/
lemma credits_caseEq : ∀ ms ms' : List Modul, modulListCaseEq ms ms' →
    ((ms'.filter (fun m =>
        decide (pyLower m.status = "abgeschlossen"))).map Modul.ects).sum
      = ((ms.filter (fun m =>
          decide (pyLower m.status = "abgeschlossen"))).map Modul.ects).sum
  | [], [], _ => rfl
  | [], _ :: _, h => h.elim
  | _ :: _, [], h => h.elim
  | m :: ms, m' :: ms', h => by
    obtain ⟨⟨hn, he, hs, hg, hp⟩, htail⟩ := h
    have hstat : pyLower m'.status = pyLower m.status :=
      (pyLower_caseVariant hs).symm
    have hrec := credits_caseEq ms ms' htail
    by_cases hc : pyLower m.status = "abgeschlossen" <;>
      simp [List.filter_cons, hstat, hc, he, hrec]

/-- Earned credits over a semester list are invariant under changing
only the letter case of the statuses. -/
lemma credits_sems_caseEq : ∀ ss ss' : List Semester, semesterListCaseEq ss ss' →
    (((ss'.flatMap Semester.module).filter (fun m =>
        decide (pyLower m.status = "abgeschlossen"))).map Modul.ects).sum
      = (((ss.flatMap Semester.module).filter (fun m =>
          decide (pyLower m.status = "abgeschlossen"))).map Modul.ects).sum
  | [], [], _ => rfl
  | [], _ :: _, h => h.elim
  | _ :: _, [], h => h.elim
  | s :: ss, s' :: ss', h => by
    obtain ⟨⟨_, _, _, hm⟩, htail⟩ := h
    simp [List.flatMap_cons, List.filter_append, List.map_append,
      List.sum_append, credits_caseEq s.module s'.module hm,
      credits_sems_caseEq ss ss' htail]

/-- Replacing the grades of a module list leaves its earned credits
unchanged. -/
lemma credits_mapNoten (f : Modul → Option Rat) (ms : List Modul) :
    (((ms.map (fun m => { m with note := f m })).filter (fun m =>
        decide (pyLower m.status = "abgeschlossen"))).map Modul.ects).sum
      = ((ms.filter (fun m =>
          decide (pyLower m.status = "abgeschlossen"))).map Modul.ects).sum := by
  induction ms with
  | nil => rfl
  | cons m ms ih =>
    by_cases hc : pyLower m.status = "abgeschlossen" <;>
      simp [List.map_cons, List.filter_cons, hc, ih]

/-- Replacing the grades over a semester list leaves earned credits
unchanged. -/
lemma credits_sems_mapNoten (f : Modul → Option Rat) (ss : List Semester) :
    ((((ss.map (fun sem =>
        { sem with module := sem.module.map (fun m => { m with note := f m }) })).flatMap
          Semester.module).filter (fun m =>
        decide (pyLower m.status = "abgeschlossen"))).map Modul.ects).sum
      = (((ss.flatMap Semester.module).filter (fun m =>
          decide (pyLower m.status = "abgeschlossen"))).map Modul.ects).sum := by
  induction ss with
  | nil => rfl
  | cons s ss ih =>
    simp [List.map_cons, List.flatMap_cons, List.filter_append,
      List.map_append, List.sum_append, credits_mapNoten, ih]

/-- `removeFirst` on a list split around the first occurrence of `m`
drops exactly that occurrence. -/
lemma removeFirst_append (m : Modul) (l₁ l₂ : List Modul) (h : m ∉ l₁) :
    removeFirst m (l₁ ++ m :: l₂) = l₁ ++ l₂ := by
  induction l₁ with
  | nil => simp [removeFirst]
  | cons x xs ih =>
    have hx : ¬(x = m) := fun he => h (he ▸ List.mem_cons_self x xs)
    simp [removeFirst, hx, ih (fun hm => h (List.mem_cons_of_mem x hm))]

/- ------------------------------------------------------------------ -/
/- Claim theorems                                                     -/
/- ------------------------------------------------------------------ -/

/-- C2: `getFortschrittECTS` is exactly the sum of `ects` over the
modules (across all semesters) whose status lowercases to
`"abgeschlossen"`; changing only the letter case of the status strings
never changes the result; and the result ignores the modules' grades
entirely. -/
theorem getFortschrittECTS_spec (stg : Studiengang) :
    stg.getFortschrittECTS
        = ((stg.allModule.filter (fun m =>
            decide (pyLower m.status = "abgeschlossen"))).map Modul.ects).sum
      ∧ (∀ stg' : Studiengang, studiengangCaseEq stg stg' →
          stg'.getFortschrittECTS = stg.getFortschrittECTS)
      ∧ (∀ f : Modul → Option Rat,
          (Studiengang.mapNoten f stg).getFortschrittECTS
            = stg.getFortschrittECTS) := by
  refine ⟨fortschritt_formula stg, ?_, ?_⟩
  · intro stg' h
    obtain ⟨hn, hg, hs⟩ := h
    simp only [fortschritt_formula, Studiengang.allModule]
    exact credits_sems_caseEq stg.semester stg'.semester hs
  · intro f
    simp only [fortschritt_formula, Studiengang.allModule, Studiengang.mapNoten]
    exact credits_sems_mapNoten f stg.semester

/-- Witness for C2 at the `main` example program: earned credits are
8 + 6 = 14, unchanged by re-casing every status and by erasing every
grade. -/
theorem getFortschrittECTS_spec_witness :
    stgBeispiel.getFortschrittECTS
        = ((stgBeispiel.allModule.filter (fun m =>
            decide (pyLower m.status = "abgeschlossen"))).map Modul.ects).sum
      ∧ studiengangCaseEq stgBeispiel stgBeispielCase
      ∧ stgBeispielCase.getFortschrittECTS = stgBeispiel.getFortschrittECTS
      ∧ (Studiengang.mapNoten (fun _ => none) stgBeispiel).getFortschrittECTS
          = stgBeispiel.getFortschrittECTS
      ∧ stgBeispiel.getFortschrittECTS = 14 := by
  have h := getFortschrittECTS_spec stgBeispiel
  have hcase : studiengangCaseEq stgBeispiel stgBeispielCase :=
    ⟨rfl, rfl,
      ⟨⟨rfl, rfl, rfl,
          ⟨⟨rfl, rfl, by decide, rfl, rfl⟩,
           ⟨rfl, rfl, by decide, rfl, rfl⟩, trivial⟩⟩,
       ⟨⟨rfl, rfl, rfl,
          ⟨⟨rfl, rfl, by decide, rfl, rfl⟩, trivial⟩⟩, trivial⟩⟩⟩
  exact ⟨h.1, hcase, h.2.1 stgBeispielCase hcase, h.2.2 (fun _ => none), by decide⟩

/-- C3: `getNotendurchschnitt` is the arithmetic mean of the present
module grades across all semesters, and `0` when no module has a
grade; it is total, so no error is possible. -/
theorem getNotendurchschnitt_spec (stg : Studiengang) :
    (stg.allModule.filterMap Modul.note = [] →
      stg.getNotendurchschnitt = 0)
    ∧ (stg.allModule.filterMap Modul.note ≠ [] →
        stg.getNotendurchschnitt
          = (stg.allModule.filterMap Modul.note).sum
              / ((stg.allModule.filterMap Modul.note).length : Rat)) := by
  constructor <;> intro h <;> simp [noten_formula, h]

/-- Witness for C3: the empty program averages to `0`; the `main`
example program averages to (2.3 + 2.0) / 2 = 2.15. -/
theorem getNotendurchschnitt_spec_witness :
    stgLeer.getNotendurchschnitt = 0
    ∧ stgBeispiel.getNotendurchschnitt = 43/20 := by
  constructor
  · exact (getNotendurchschnitt_spec stgLeer).1 rfl
  · have h := (getNotendurchschnitt_spec stgBeispiel).2 (by decide)
    rw [h]
    norm_num [stgBeispiel, Studiengang.allModule, List.filterMap_cons,
      List.sum_cons, List.sum_nil]

/-- C4: appending an exam attempt appends it at the end of the attempt
list and unconditionally overwrites the module's final grade with the
new attempt's grade, leaving the other fields alone. -/
theorem addPruefungsleistung_spec (m : Modul) (p : Pruefungsleistung) :
    (m.addPruefungsleistung p).pruefungen = m.pruefungen ++ [p]
    ∧ (m.addPruefungsleistung p).note = some p.note
    ∧ (m.addPruefungsleistung p).modulName = m.modulName
    ∧ (m.addPruefungsleistung p).ects = m.ects
    ∧ (m.addPruefungsleistung p).status = m.status :=
  ⟨rfl, rfl, rfl, rfl, rfl⟩

/-- C5: the progress percentage is `earned / target * 100` when the
credit target is positive and `0` when the target is zero; the
division branch is guarded, so the function is total. -/
theorem progressPercentage_spec (stg : Studiengang) :
    (stg.gesamtECTS > 0 →
      DashboardService.progressPercentage stg
        = (stg.getFortschrittECTS : Rat) / (stg.gesamtECTS : Rat) * 100)
    ∧ (stg.gesamtECTS = 0 → DashboardService.progressPercentage stg = 0) := by
  constructor <;> intro h <;>
    simp [DashboardService.progressPercentage, h]

/-- Witness for C5: the `main` example program (target 180 > 0) yields
14/180·100 = 70/9 percent; the empty program with target 0 yields 0. -/
theorem progressPercentage_spec_witness :
    stgBeispiel.gesamtECTS > 0
    ∧ DashboardService.progressPercentage stgBeispiel = 70/9
    ∧ stgLeer.gesamtECTS = 0
    ∧ DashboardService.progressPercentage stgLeer = 0 := by
  refine ⟨by decide, ?_, rfl, (progressPercentage_spec stgLeer).2 rfl⟩
  have h := (progressPercentage_spec stgBeispiel).1 (by decide)
  have h14 : stgBeispiel.getFortschrittECTS = 14 := by decide
  rw [h, h14]
  norm_num [stgBeispiel]

/-- C9: removing a module that occurs in a semester (at its first
occurrence, which is the only one under Python's identity comparison)
removes exactly that module, keeps the surrounding modules in their
original relative order, and leaves the other semester fields alone. -/
theorem removeModul_spec (sem : Semester) (m : Modul) (l₁ l₂ : List Modul)
    (hsplit : sem.module = l₁ ++ m :: l₂) (hnot : m ∉ l₁) :
    (sem.removeModul m).module = l₁ ++ l₂
    ∧ (sem.removeModul m).semesterNummer = sem.semesterNummer
    ∧ (sem.removeModul m).startDatum = sem.startDatum
    ∧ (sem.removeModul m).endDatum = sem.endDatum := by
  refine ⟨?_, rfl, rfl, rfl⟩
  show removeFirst m sem.module = l₁ ++ l₂
  rw [hsplit]
  exact removeFirst_append m l₁ l₂ hnot

/-- Witness for C9: removing the middle of three modules keeps the
outer two in order. -/
theorem removeModul_spec_witness :
    (Semester.removeModul
        { semesterNummer := 1, startDatum := none, endDatum := none,
          module := [Modul.mk0 "A" 5 "offen", Modul.mk0 "B" 6 "offen",
                     Modul.mk0 "C" 7 "offen"] }
        (Modul.mk0 "B" 6 "offen")).module
      = [Modul.mk0 "A" 5 "offen", Modul.mk0 "C" 7 "offen"] :=
  (removeModul_spec
    { semesterNummer := 1, startDatum := none, endDatum := none,
      module := [Modul.mk0 "A" 5 "offen", Modul.mk0 "B" 6 "offen",
                 Modul.mk0 "C" 7 "offen"] }
    (Modul.mk0 "B" 6 "offen")
    [Modul.mk0 "A" 5 "offen"] [Modul.mk0 "C" 7 "offen"]
    rfl (by decide)).1

/-- Decoding a mapped list succeeds when each element round-trips. -/
lemma decodeList_map (f : α → Json) (g : Json → Option α) (xs : List α)
    (h : ∀ x ∈ xs, g (f x) = some x) : decodeList g (xs.map f) = some xs := by
  induction xs with
  | nil => rfl
  | cons x xs ih =>
    simp [decodeList, h x (List.mem_cons_self x xs),
      ih (fun y hy => h y (List.mem_cons_of_mem x hy))]

/-- Decoding a list fails as soon as one element fails. -/
lemma decodeList_none (g : Json → Option α) :
    ∀ (xs : List Json) (x : Json), x ∈ xs → g x = none →
      decodeList g xs = none := by
  intro xs
  induction xs with
  | nil => intro x hx; cases hx
  | cons y ys ih =>
    intro x hx hgx
    rcases List.mem_cons.mp hx with he | hx2
    · subst he
      cases hrec : decodeList g ys <;> simp [decodeList, hgx, hrec]
    · cases hgy : g y <;> simp [decodeList, hgy, ih x hx2 hgx]

/-- Serializing one exam attempt and decoding it restores it. -/
lemma pruef_round (p : Pruefungsleistung) :
    Pruefungsleistung.from_dict p.to_dict = some p := by
  simp [Pruefungsleistung.from_dict, Pruefungsleistung.to_dict, Json.getKey,
    List.lookup, Json.asGrade, Json.asInt]

/-- Serializing one module and decoding it restores it. -/
lemma modul_round (m : Modul) : Modul.from_dict m.to_dict = some m := by
  obtain ⟨name, ects, status, note, pruef⟩ := m
  cases note <;>
    simp [Modul.from_dict, Modul.to_dict, Json.getKey, List.lookup,
      Json.asStr, Json.asInt, decodeOptGrade, decodeChildren,
      decodeList_map Pruefungsleistung.to_dict Pruefungsleistung.from_dict
        pruef (fun p _ => pruef_round p)]

/-- Serializing one semester and decoding it restores it. -/
lemma semester_round (sem : Semester) :
    Semester.from_dict sem.to_dict = some sem := by
  obtain ⟨nr, sd, ed, ms⟩ := sem
  cases sd <;> cases ed <;>
    simp [Semester.from_dict, Semester.to_dict, Json.getKey, List.lookup,
      Json.asInt, decodeOptStr, decodeChildren,
      decodeList_map Modul.to_dict Modul.from_dict
        ms (fun m _ => modul_round m)]

/-- Serializing a whole program and decoding it restores it. -/
lemma studiengang_round (stg : Studiengang) :
    Studiengang.from_dict stg.to_dict = some stg := by
  simp [Studiengang.from_dict, Studiengang.to_dict, Json.getKey, List.lookup,
    Json.asStr, Json.asInt, decodeChildren,
    decodeList_map Semester.to_dict Semester.from_dict
      stg.semester (fun s _ => semester_round s)]

/-- C1: saving any program tree to a resource and loading that resource
back yields a program structurally equal to the original — the same
field values at every level and the same ordering of the semester,
module, and attempt lists. -/
theorem load_save_roundtrip (store : Store) (datei : String)
    (stg : Studiengang) :
    PersistenceService.loadData
        (PersistenceService.saveData store datei stg) datei = some stg := by
  simp [PersistenceService.loadData, PersistenceService.saveData,
    studiengang_round]

/-- C6: `loadData` returns an absent result on every failure — resource
unavailable, content unparsable, or a required field missing at any
level of the tree (program `name`/`gesamtECTS`, semester
`semesterNummer`, module `modulName`/`ects`/`status`, attempt
`note`/`versuch`) — and, being total functions, neither `loadData` nor
`saveData` can propagate an exception. -/
theorem loadData_error_spec (store : Store) (datei : String) :
    (store datei = none → PersistenceService.loadData store datei = none)
    ∧ (∀ raw, store datei = some (.malformed raw) →
        PersistenceService.loadData store datei = none)
    ∧ (∀ j, store datei = some (.parsed j) →
        PersistenceService.loadData store datei = Studiengang.from_dict j)
    ∧ (∀ j : Json, j.getKey "name" = none → Studiengang.from_dict j = none)
    ∧ (∀ j : Json, j.getKey "gesamtECTS" = none → Studiengang.from_dict j = none)
    ∧ (∀ j : Json, j.getKey "semesterNummer" = none → Semester.from_dict j = none)
    ∧ (∀ j : Json, j.getKey "modulName" = none → Modul.from_dict j = none)
    ∧ (∀ j : Json, j.getKey "ects" = none → Modul.from_dict j = none)
    ∧ (∀ j : Json, j.getKey "status" = none → Modul.from_dict j = none)
    ∧ (∀ j : Json, j.getKey "note" = none → Pruefungsleistung.from_dict j = none)
    ∧ (∀ j : Json, j.getKey "versuch" = none → Pruefungsleistung.from_dict j = none)
    ∧ (∀ (j : Json) (xs : List Json) (x : Json), j.getKey "semester" = some (.arr xs) →
        x ∈ xs → Semester.from_dict x = none → Studiengang.from_dict j = none)
    ∧ (∀ (j : Json) (xs : List Json) (x : Json), j.getKey "module" = some (.arr xs) →
        x ∈ xs → Modul.from_dict x = none → Semester.from_dict j = none)
    ∧ (∀ (j : Json) (xs : List Json) (x : Json), j.getKey "pruefungen" = some (.arr xs) →
        x ∈ xs → Pruefungsleistung.from_dict x = none → Modul.from_dict j = none) := by
  refine ⟨?_, ?_, ?_, ?_, ?_, ?_, ?_, ?_, ?_, ?_, ?_, ?_, ?_, ?_⟩
  · intro h; simp [PersistenceService.loadData, h]
  · intro raw h; simp [PersistenceService.loadData, h]
  · intro j h; simp [PersistenceService.loadData, h]
  · intro j h; simp [Studiengang.from_dict, h]
  · intro j h; simp [Studiengang.from_dict, h]
  · intro j h; simp [Semester.from_dict, h]
  · intro j h; simp [Modul.from_dict, h]
  · intro j h; simp [Modul.from_dict, h]
  · intro j h; simp [Modul.from_dict, h]
  · intro j h; simp [Pruefungsleistung.from_dict, h]
  · intro j h; simp [Pruefungsleistung.from_dict, h]
  · intro j xs x hkey hmem hx
    simp [Studiengang.from_dict, hkey, decodeChildren,
      decodeList_none Semester.from_dict xs x hmem hx]
  · intro j xs x hkey hmem hx
    simp [Semester.from_dict, hkey, decodeChildren,
      decodeList_none Modul.from_dict xs x hmem hx]
  · intro j xs x hkey hmem hx
    simp [Modul.from_dict, hkey, decodeChildren,
      decodeList_none Pruefungsleistung.from_dict xs x hmem hx]

/-- Witness for C6: an unavailable resource loads as `none`; a record
missing the required `name` loads as `none`; an attempt record missing
`versuch` fails, which makes the module, semester, and whole program
fail too. -/
theorem loadData_error_spec_witness :
    PersistenceService.loadData (fun _ => none) "studiengang.json" = none
    ∧ Studiengang.from_dict (.obj []) = none
    ∧ Pruefungsleistung.from_dict (.obj [("note", .num 1)]) = none
    ∧ Modul.from_dict
        (.obj [("modulName", .str "Mathe I"), ("ects", .int 8),
               ("status", .str "Abgeschlossen"),
               ("pruefungen", .arr [.obj [("note", .num 1)]])]) = none := by
  have h := loadData_error_spec (fun _ => none) "studiengang.json"
  have hpruef : Pruefungsleistung.from_dict (.obj [("note", .num 1)]) = none :=
    h.2.2.2.2.2.2.2.2.2.2.1 (.obj [("note", .num 1)]) rfl
  refine ⟨h.1 rfl, h.2.2.2.1 (.obj []) rfl, hpruef, ?_⟩
  exact h.2.2.2.2.2.2.2.2.2.2.2.2.2
    (.obj [("modulName", .str "Mathe I"), ("ects", .int 8),
           ("status", .str "Abgeschlossen"),
           ("pruefungen", .arr [.obj [("note", .num 1)]])])
    [.obj [("note", .num 1)]] (.obj [("note", .num 1)])
    rfl (List.mem_singleton.mpr rfl) hpruef

/-- C10: a record whose child-list key is entirely missing decodes
successfully with an empty child sequence, at all three levels
(`semester` on a program, `module` on a semester, `pruefungen` on a
module). -/
theorem from_dict_missing_children_spec :
    (∀ (n : String) (g : Int),
      Studiengang.from_dict (.obj [("name", .str n), ("gesamtECTS", .int g)])
        = some { name := n, gesamtECTS := g, semester := [] })
    ∧ (∀ k : Int, Semester.from_dict (.obj [("semesterNummer", .int k)])
        = some { semesterNummer := k, startDatum := none, endDatum := none,
                 module := [] })
    ∧ (∀ (nm : String) (e : Int) (st : String),
        Modul.from_dict (.obj [("modulName", .str nm), ("ects", .int e),
                               ("status", .str st)])
          = some { modulName := nm, ects := e, status := st, note := none,
                   pruefungen := [] }) := by
  refine ⟨fun n g => ?_, fun k => ?_, fun nm e st => ?_⟩ <;> rfl

/-- C8: a serialized semester record without a `startDatum` key decodes
— when it decodes at all — to a semester whose start date is absent,
and an otherwise complete such record does decode successfully (no
error is reported); the same holds for `endDatum`. -/
theorem from_dict_missing_startDatum :
    (∀ (j : Json), j.getKey "startDatum" = none →
      ∀ sem : Semester, Semester.from_dict j = some sem → sem.startDatum = none)
    ∧ (∀ (j : Json), j.getKey "endDatum" = none →
      ∀ sem : Semester, Semester.from_dict j = some sem → sem.endDatum = none)
    ∧ (∀ (k : Int) (e : String),
        Semester.from_dict
          (.obj [("semesterNummer", .int k), ("endDatum", .str e),
                 ("module", .arr [])])
          = some { semesterNummer := k, startDatum := none,
                   endDatum := some e, module := [] }) := by
  refine ⟨?_, ?_, fun k e => rfl⟩
  · intro j h sem hsem
    simp only [Semester.from_dict, h, decodeOptStr, Option.bind_eq_some,
      Option.some.injEq] at hsem
    obtain ⟨k, hk, sd, hsd, ed, hed, ms, hms, hrec⟩ := hsem
    cases hsd
    rw [← hrec]
  · intro j h sem hsem
    simp only [Semester.from_dict, h, decodeOptStr, Option.bind_eq_some,
      Option.some.injEq] at hsem
    obtain ⟨k, hk, sd, hsd, ed, hed, ms, hms, hrec⟩ := hsem
    cases hed
    rw [← hrec]

/-- Witness for C8: a concrete semester record with `semesterNummer`,
`endDatum`, and `module` but no `startDatum` key decodes successfully,
and the decoded semester has an absent start date. -/
theorem from_dict_missing_startDatum_witness :
    Semester.from_dict
        (.obj [("semesterNummer", .int 1), ("endDatum", .str "2024-03-31"),
               ("module", .arr [])])
      = some { semesterNummer := 1, startDatum := none,
               endDatum := some "2024-03-31", module := [] }
    ∧ ({ semesterNummer := 1, startDatum := none,
         endDatum := some "2024-03-31", module := [] } : Semester).startDatum
        = none := by
  have h := from_dict_missing_startDatum
  have hdec := h.2.2 1 "2024-03-31"
  exact ⟨hdec,
    h.1 (.obj [("semesterNummer", .int 1), ("endDatum", .str "2024-03-31"),
               ("module", .arr [])]) rfl _ hdec⟩

/-- C7 counterexample: the serialized form of the `main` example
program has top-level keys `name`, `gesamtECTS`, `semester` — the
source's German attribute names — so the schema field names claimed
(`totalCreditTarget`, `semesters`, ...) do not appear. -/
theorem to_dict_keys_counterexample :
    (Studiengang.to_dict stgBeispiel).keys = ["name", "gesamtECTS", "semester"]
    ∧ "totalCreditTarget" ∉ (Studiengang.to_dict stgBeispiel).keys
    ∧ "semesters" ∉ (Studiengang.to_dict stgBeispiel).keys := by
  refine ⟨rfl, ?_, ?_⟩ <;> decide

/-- C7 (amended): save writes objects whose keys are exactly the
source attribute names — `name`, `gesamtECTS`, `semester` on the
program; `semesterNummer`, `startDatum`, `endDatum`, `module` on a
semester; `modulName`, `ects`, `status`, `note`, `pruefungen` on a
module; `note`, `versuch` on an attempt — and these names round-trip
exactly: decoding a saved tree and re-serializing it reproduces the
identical object. -/
theorem to_dict_keys_spec (stg : Studiengang) (sem : Semester) (m : Modul)
    (p : Pruefungsleistung) :
    (Studiengang.to_dict stg).keys = ["name", "gesamtECTS", "semester"]
    ∧ (Semester.to_dict sem).keys
        = ["semesterNummer", "startDatum", "endDatum", "module"]
    ∧ (Modul.to_dict m).keys
        = ["modulName", "ects", "status", "note", "pruefungen"]
    ∧ (Pruefungsleistung.to_dict p).keys = ["note", "versuch"]
    ∧ (Studiengang.from_dict stg.to_dict).map Studiengang.to_dict
        = some stg.to_dict := by
  refine ⟨rfl, rfl, rfl, rfl, ?_⟩
  rw [studiengang_round]
  rfl
